import Mathlib

/-!
Verification of the runtime type-contract engine of `src/typed.py`
(RilowFramework): the type-descriptor algebra, the recursive matcher
`_typecheck`, and the call-contract wrapper `_TypedWrapper`.

The embedding is shallow: Python runtime values become the inductive
`Value`, declared type expressions become the inductive `Descriptor`
(each constructor is one of the classification predicates `_isUnion`,
`_isList`, ... of typed.py), and each Python function below is a direct
transcription of the correspondingly named function of typed.py.
Exceptions are modelled with `Except PyError`; each `PyError`
constructor corresponds to one raise site (or one Python runtime
failure mode) and carries exactly the data interpolated into that
site's message.
-/

namespace RilowTyped

/-- The builtin classes that can appear as nominal annotations or as the
class of a runtime value in this development. `isinstance` on these is
total and never raises. -/
inductive PyClass where
  | int
  | str
  | bool
  | list
  | tuple
  | dict
  deriving DecidableEq, Repr

/-- A declared type expression, as classified by the predicate family
`_isUnion` / `_isList` / `_isTuple` / `_isDict` / `_isTypeVar` /
`_isType` / `_isBuiltinType` / `_isCallable` / `_isString` of typed.py.
Each constructor collects exactly the expressions for which one
predicate (or one equality test of `_typecheck`) fires:

* `any`          - `typing.Any`;
* `noReturn`     - `typing.NoReturn`;
* `noneType`     - `None` or `type(None)` used as an annotation;
* `typeRef i`    - `typing.Type` (`i = none`) or `typing.Type[X]`
                   (`i = some X`).  Note `_isType` tests
                   `x == Type and x.__class__ == _SpecialGenericAlias`,
                   which only the *bare* `typing.Type` satisfies: the
                   subscripted `Type[X]` is a `_GenericAlias`, differs
                   from `Type`, and satisfies none of the predicates;
* `typeVar n b`  - a `TypeVar` named `n` with optional bound `b`;
* `builtinType`  - the builtin class `type` (`_isBuiltinType`);
* `union ms`     - `typing.Union[...]` with member list `ms`
                   (`__args__`, always non-empty in Python);
* `listD e`      - `typing.List` (`e = none`) or `typing.List[E]`;
* `tupleD es`    - `typing.Tuple[...]` with element list `es`
                   (bare `typing.Tuple` has `es = []`, matching its
                   empty `__args__`);
* `dictD kv`     - `typing.Dict` (`kv = none`, no `__args__`) or
                   `typing.Dict[K, V]`;
* `callable ps r`- a subscripted `typing.Callable[[...], R]`, the only
                   expressions whose class is `_CallableGenericAlias`;
* `strLit s`     - a string literal annotation such as `"User"`
                   (first disjunct of `_isString`);
* `nominal c`    - a plain class used nominally (the `isinstance`
                   fallback of `_typecheck`; the class `str` is special
                   because the second disjunct of `_isString`,
                   `x == str`, fires for it). -/
inductive Descriptor where
  | any
  | noReturn
  | noneType
  | typeRef (inner : Option Descriptor)
  | typeVar (tvName : String) (bound : Option Descriptor)
  | builtinType
  | union (members : List Descriptor)
  | listD (element : Option Descriptor)
  | tupleD (elements : List Descriptor)
  | dictD (kv : Option (Descriptor × Descriptor))
  | callable (params : List Descriptor) (returns : Descriptor)
  | strLit (s : String)
  | nominal (c : PyClass)
  deriving Repr

/-- A Python exception, one constructor per raise site of typed.py (or
per runtime failure mode its expressions can hit), carrying exactly the
data interpolated into the corresponding message.

* `runtimeError msg` - `raise RuntimeError(...)` (the `NoReturn` branch
  of `_typecheck`, message "NoReturn should not be accessed by the
  typed wrapper");
* `indexError` - an out-of-range subscript (`args[0]` on an empty
  `__args__` tuple in the Dict branch of `_typecheck`, `names[i]` in
  `from_callable`);
* `subscriptedInstanceCheck` - the `TypeError` CPython raises for
  `isinstance(v, t)` when `t` is a subscripted generic ("Subscripted
  generics cannot be used with class and instance checks"), hit by the
  final fallback of `_typecheck`;
* `keyError k` - a missing dict key `k` (`self.annotations[arg]` in
  `typedfunc`);
* `attributeError a` - a missing attribute `a` (`self.wrap_callables`
  on a wrapper built by `from_callable`, `func.__code__` on a value
  that is not a function);
* `argTypeError f p t` - `raise TypeError("Function '%s' argument '%s'
  must be type '%s'" % (f, p, t))` in `typedfunc`;
* `returnTypeError f t` - `raise TypeError("Function '%s' must return
  type '%s'" % (f, t))` in `__call__`;
* `typeError msg` - a `TypeError` raised inside a wrapped target (for
  example by `int.__add__`). -/
inductive PyError where
  | runtimeError (msg : String)
  | indexError
  | subscriptedInstanceCheck
  | keyError (k : String)
  | attributeError (a : String)
  | argTypeError (functionName parameterName expectedTypeName : String)
  | returnTypeError (functionName expectedTypeName : String)
  | typeError (msg : String)
  deriving DecidableEq, Repr

/-- The body of a Python function in this development, identifying its
behaviour when invoked (the semantics is given by `pySem` further
down). -/
inductive Code where
  | makeAdderBody
  | adderBody (x : Int)
  | constInt (n : Int)
  | raiseErr (e : PyError)
  | twoParamBody
  deriving DecidableEq, Repr

/-- A Python function object: `paramNames` is what
`_getArgNames(func.__code__)` returns (the positional followed by the
keyword-only formal parameter names, in declaration order — always
pairwise distinct for a real code object), `fname` is `__name__`, and
`code` identifies the body. -/
structure FuncObj where
  paramNames : List String
  fname : String
  code : Code
  deriving DecidableEq, Repr

/-- A Python runtime value. `pydict` keeps its key/value pairs in
insertion order, as CPython dicts do; `pytype` is a class object used
as a value; `func` is a function object; `typingObj d` is a typing
alias object (such as `Callable[[int], int]` itself) used as a runtime
value — the only values whose `__class__` can equal
`_CallableGenericAlias`. -/
inductive Value where
  | none
  | int (n : Int)
  | bool (b : Bool)
  | str (s : String)
  | pylist (xs : List Value)
  | pytuple (xs : List Value)
  | pydict (pairs : List (Value × Value))
  | pytype (c : PyClass)
  | func (f : FuncObj)
  | typingObj (d : Descriptor)
  deriving Repr

/-- `isinstance(v, c)` for a plain builtin class `c`: total on this
value universe. Python's `bool` is a subclass of `int`, so a `bool`
value is an instance of `int`. -/
def pyIsInstance (v : Value) (c : PyClass) : Bool :=
  match v, c with
  | .int _, .int => true
  | .bool _, .int => true
  | .bool _, .bool => true
  | .str _, .str => true
  | .pylist _, .list => true
  | .pytuple _, .tuple => true
  | .pydict _, .dict => true
  | _, _ => false

mutual

/-- `_typecheck(v, t)` of typed.py (lines 202-337), transcribed branch
by branch in source order.  Branches that can raise are transcribed as
`Except.error`:

* the `NoReturn` branch raises `RuntimeError`;
* a subscripted `Type[X]` satisfies none of the dispatch predicates
  (see `Descriptor.typeRef`) and reaches the final
  `isinstance(v, t)` fallback, which raises `TypeError` for a
  subscripted generic;
* the Dict branch reads `args[0]` and `args[1]` without the
  `not args` guard that the List and Tuple branches have, so a bare
  `typing.Dict` (empty `__args__`) raises `IndexError` as soon as the
  value *is* a mapping;
* `elif _isCallable(t): return True` returns true for every value;
* `_isString(t)` is `isinstance(t, str) or t == str`, so both a string
  literal annotation and the class `str` itself make every value pass;
* the final fallback `isinstance(v, t)` handles the remaining nominal
  classes. -/
def typecheck (v : Value) (t : Descriptor) : Except PyError Bool :=
  match t with
  | .any => .ok true
  | .noReturn =>
      .error (.runtimeError "NoReturn should not be accessed by the typed wrapper")
  | .noneType =>
      .ok (match v with | .none => true | _ => false)
  | .typeRef Option.none => .ok true
  | .typeRef (Option.some _) => .error .subscriptedInstanceCheck
  | .typeVar _ Option.none => .ok true
  | .typeVar _ (Option.some b) => typecheck v b
  | .builtinType => .ok true
  | .union ms => unionLoop v ms
  | .listD e? =>
      match v with
      | .pylist xs =>
          match e? with
          | Option.none => .ok true
          | Option.some e => listAllCheck xs e
      | _ => .ok false
  | .tupleD ts =>
      match v with
      | .pytuple xs =>
          if ts.isEmpty then .ok true
          else if ts.length ≠ xs.length then .ok false
          else tupleLoop xs ts true
      | _ => .ok false
  | .dictD kv? =>
      match v with
      | .pydict pairs =>
          match kv? with
          | Option.none => .error .indexError
          | Option.some (kd, vd) =>
              match listAllCheck (pairs.map Prod.fst) kd with
              | .error e => .error e
              | .ok kb =>
                  match listAllCheck (pairs.map Prod.snd) vd with
                  | .error e => .error e
                  | .ok vb => .ok (kb && vb)
      | _ => .ok false
  | .callable _ _ => .ok true
  | .strLit _ => .ok true
  | .nominal c => if c = .str then .ok true else .ok (pyIsInstance v c)
termination_by (sizeOf t, 0)

/-- The Union branch of `_typecheck`: `for type_ in t.__args__`, break
on the first member that matches; an exception inside a member check
propagates. -/
def unionLoop (v : Value) (ms : List Descriptor) : Except PyError Bool :=
  match ms with
  | [] => .ok false
  | m :: rest =>
      match typecheck v m with
      | .error e => .error e
      | .ok true => .ok true
      | .ok false => unionLoop v rest
termination_by (sizeOf ms, 0)

/-- `all([_typecheck(x, e) for x in xs])`: the comprehension evaluates
every element check before `all`, so a later exception propagates even
after an earlier `False`. -/
def listAllCheck (xs : List Value) (e : Descriptor) : Except PyError Bool :=
  match xs with
  | [] => .ok true
  | x :: rest =>
      match typecheck x e with
      | .error err => .error err
      | .ok b =>
          match listAllCheck rest e with
          | .error err => .error err
          | .ok b' => .ok (b && b')
termination_by (sizeOf e + 1, xs.length)

/-- The Tuple branch's loop: `for i in range(len(args)): if not
_typecheck(v[i], args[i]): check = False` — it does not break, so every
position is checked and a later exception propagates even after an
earlier mismatch. -/
def tupleLoop (xs : List Value) (ts : List Descriptor) (acc : Bool) :
    Except PyError Bool :=
  match xs, ts with
  | x :: xs', t :: ts' =>
      match typecheck x t with
      | .error e => .error e
      | .ok b => tupleLoop xs' ts' (acc && b)
  | _, _ => .ok acc
termination_by (sizeOf ts, xs.length)

end

/-- `__name__` of a builtin class. -/
def className : PyClass → String
  | .int => "int"
  | .str => "str"
  | .bool => "bool"
  | .list => "list"
  | .tuple => "tuple"
  | .dict => "dict"

/-- Models what Python's `str()` prints for a type expression (a class
renders as `<class '...'>`, a typing alias as `typing....`). Only the
class case is pinned down by CPython exactly; the alias renderings
approximate CPython's `typing` repr, and no theorem below depends on
them. -/
def pyStr : Descriptor → String
  | .any => "typing.Any"
  | .noReturn => "typing.NoReturn"
  | .noneType => "None"
  | .typeRef Option.none => "typing.Type"
  | .typeRef (Option.some d) => "typing.Type[" ++ pyStr d ++ "]"
  | .typeVar n _ => "~" ++ n
  | .builtinType => "<class 'type'>"
  | .union ms =>
      "typing.Union[" ++ String.intercalate ", " (ms.attach.map (fun m => pyStr m.1)) ++ "]"
  | .listD Option.none => "typing.List"
  | .listD (Option.some e) => "typing.List[" ++ pyStr e ++ "]"
  | .tupleD es =>
      "typing.Tuple[" ++ String.intercalate ", " (es.attach.map (fun m => pyStr m.1)) ++ "]"
  | .dictD Option.none => "typing.Dict"
  | .dictD (Option.some (k, v)) =>
      "typing.Dict[" ++ pyStr k ++ ", " ++ pyStr v ++ "]"
  | .callable ps r =>
      "typing.Callable[[" ++ String.intercalate ", " (ps.attach.map (fun m => pyStr m.1)) ++
        "], " ++ pyStr r ++ "]"
  | .strLit s => s
  | .nominal c => "<class '" ++ className c ++ "'>"
decreasing_by
  all_goals simp_wf
  all_goals first
  | (have hlt := List.sizeOf_lt_of_mem m.2; omega)
  | omega

/-- Python's `repr()` of a tuple of strings, as produced by
`str(tuple([...]))` in the Union branch of `_getTypeName` (single-quote
style; a one-element tuple keeps its trailing comma). -/
def pyTupleRepr : List String → String
  | [] => "()"
  | [a] => "('" ++ a ++ "',)"
  | xs => "(" ++ String.intercalate ", " (xs.map (fun a => "'" ++ a ++ "'")) ++ ")"

/-- `_getTypeName(x)` of typed.py (lines 58-129), branch by branch:

* `Any` / `NoReturn` render as their names;
* a Union renders `str(tuple([_getTypeName(arg) for arg in args]))`;
* a List renders `"List[" + f"{args[0]}]"` — note the f-string prints
  `str()` of the element expression, not its `_getTypeName`;
* a Tuple joins the element names with `", "` and strips the trailing
  two characters, so a bare `typing.Tuple` (empty `__args__`) renders
  as `"Tuple]"` (the strip eats the `[`);
* a Dict renders `"Dict[K: V]"`, with the bare `typing.Dict`
  rendering as `"Dict[]"` (this branch, unlike `_typecheck`'s, guards
  `if args:`);
* a bound TypeVar renders its bound's name plus ` (TypeVar("n"))`, an
  unbound one renders `str(x)` = `~n`;
* `_isType` only fires for the bare `typing.Type` (see
  `Descriptor.typeRef`), which renders `_getTypeName(type)` = `"type"`;
  a subscripted `Type[X]` falls through to the final fallback;
* the fallback tries `__name__`, then `__qualname__`, then `str(x)`:
  a class gives its name, a string annotation gives itself, `None`
  gives `"None"`, and typing aliases without `__name__` (such as
  subscripted `Callable` on the CPython versions this code targets)
  give `str(x)`; newer CPython exposes `__name__` on such aliases, but
  no theorem below depends on this rendering. -/
def getTypeName : Descriptor → String
  | .any => "Any"
  | .noReturn => "NoReturn"
  | .union ms => pyTupleRepr (ms.attach.map (fun m => getTypeName m.1))
  | .listD Option.none => "List[]"
  | .listD (Option.some e) => "List[" ++ pyStr e ++ "]"
  | .tupleD [] => "Tuple]"
  | .tupleD (e :: es) =>
      "Tuple[" ++
        String.intercalate ", "
          (((e :: es).attach).map (fun m => getTypeName m.1)) ++ "]"
  | .dictD Option.none => "Dict[]"
  | .dictD (Option.some (k, v)) =>
      "Dict[" ++ getTypeName k ++ ": " ++ getTypeName v ++ "]"
  | .typeVar n Option.none => "~" ++ n
  | .typeVar n (Option.some b) =>
      getTypeName b ++ " (TypeVar(\"" ++ n ++ "\"))"
  | .typeRef Option.none => "type"
  | .typeRef (Option.some d) => pyStr (.typeRef (Option.some d))
  | .builtinType => "type"
  | .noneType => "None"
  | .callable ps r => pyStr (.callable ps r)
  | .strLit s => s
  | .nominal c => className c
decreasing_by
  all_goals simp_wf
  all_goals first
  | (have hlt := List.sizeOf_lt_of_mem m.2; simp_all; omega)
  | omega

/-- `_getArgs(x)` of typed.py: the typing object's `__args__`, or the
empty tuple when the attribute is absent.  A subscripted `Callable`
stores its parameter list flattened with the return type last; a
subscripted `Union`/`Tuple` stores its members; a subscripted `List`
or `Type` stores its single argument; a subscripted `Dict` stores the
key and value types; every bare alias and every plain class has no
`__args__`. -/
def getArgs : Descriptor → List Descriptor
  | .union ms => ms
  | .listD (Option.some e) => [e]
  | .tupleD es => es
  | .dictD (Option.some (k, v)) => [k, v]
  | .callable ps r => ps ++ [r]
  | .typeRef (Option.some d) => [d]
  | .typeVar _ _ => []
  | _ => []

/-- `x.__class__ == _CallableGenericAlias` (`_isCallable` of typed.py)
applied to a runtime *value*: only a typing alias object whose shape is
a subscripted `Callable` has that class.  An actual function object has
class `FunctionType`, so this is false for every real callable. -/
def isCallableValue : Value → Bool
  | .typingObj (.callable _ _) => true
  | _ => false

/-- The state of a `_TypedWrapper` instance: the attributes set by
`__init__` (via `_setFunc` / `_setArgs` / `_setAnnotations` /
`_setReturnType`) or by `from_callable`. `annotations` is the
insertion-ordered dict mapping parameter names (and `"return"`) to
their descriptors. `wrap_callables` is an `Option` because
`from_callable` builds its wrapper through the `_dummy` constructor
path and never sets that attribute (reading it then raises
`AttributeError`). `wname` is `self.name` (the target's `__name__`).
`self.return_type_name` is not stored here: it is always
`getTypeName return_type`, the value `_setReturnType` assigns. -/
structure Wrapper where
  args : List String
  anns : List (String × Descriptor)
  return_type : Descriptor
  wname : String
  wrap_callables : Option Bool
  func : FuncObj
  deriving Repr

/-- Lookup in an insertion-ordered dict represented as an association
list (first match wins; keys are unique by construction). -/
def lookupAnn : List (String × Descriptor) → String → Option Descriptor
  | [], _ => Option.none
  | (k, d) :: rest, n => if k = n then Option.some d else lookupAnn rest n

/-- The argument-checking loop of `typedfunc`:
`for arg in argzip: if not _typecheck(argzip[arg], self.annotations[arg]): raise TypeError(...)`.
`argzip = dict(zip(self.args, args))` pairs the declared parameter
names with the positional arguments in declaration order (formal
parameter names of a code object are pairwise distinct, so iterating
the dict visits exactly the zipped pairs in order).  A name missing
from `annotations` raises `KeyError`; a failing check raises the
`TypeError` whose format interpolates the function name, the parameter
name and `_getTypeName` of the expected descriptor — and nothing
else. -/
def checkLoop (fname : String) (anns : List (String × Descriptor)) :
    List (String × Value) → Except PyError Unit
  | [] => .ok ()
  | (pname, v) :: rest =>
      match lookupAnn anns pname with
      | Option.none => .error (.keyError pname)
      | Option.some d =>
          match typecheck v d with
          | .error e => .error e
          | .ok true => checkLoop fname anns rest
          | .ok false => .error (.argTypeError fname pname (getTypeName d))

/-- The behaviour of the wrapped targets: how a function object reacts
to positional and keyword arguments.  Theorems about the wrapper are
stated for an arbitrary semantics of this type. -/
def Sem : Type :=
  FuncObj → List Value → List (String × Value) → Except PyError Value

/-- `_TypedWrapper.typedfunc(self, args, kwargs)` of typed.py (lines
516-535): run the checking loop over `zip(self.args, args)` — keyword
arguments are never zipped, hence never checked — then
`return self.func(*args, **kwargs)`.  The `try/except` around the call
only debug-prints and re-raises (`raise` with no argument), so an
exception from the target propagates unchanged. -/
def typedfunc (sem : Sem) (w : Wrapper) (args : List Value)
    (kwargs : List (String × Value)) : Except PyError Value :=
  match checkLoop w.wname w.anns (List.zip w.args args) with
  | .error e => .error e
  | .ok () => sem w.func args kwargs

/-- One step of the `for i in range(len(args))` loop of
`from_callable`: the loop bound and `nAnnotations` are both
`len(args)`, so the test `i < nAnnotations` is always true and the
`else: annotations[names[i]] = Any` padding branch is dead code; each
iteration assigns `annotations[names[i]] = args[i]`, raising
`IndexError` when the target has fewer formal parameters than the
declared list. -/
def buildAnnLoop (names : List String) : Nat → List Descriptor →
    Except PyError (List (String × Descriptor))
  | _, [] => .ok []
  | i, d :: rest =>
      match names.get? i with
      | Option.none => .error .indexError
      | Option.some n =>
          match buildAnnLoop names (i + 1) rest with
          | .error e => .error e
          | .ok tail => .ok ((n, d) :: tail)

/-- `_TypedWrapper.from_callable(cls, func, type_)` of typed.py (lines
370-414): split `_getArgs(type_)` into the declared parameter
descriptors and the trailing return descriptor (defaulting to `Any`
when there are none), read the returned callable's own formal
parameter names from its code object, run the annotation-building
loop, add `annotations["return"]`, and assemble a wrapper through the
`_dummy` path (`_setArgs(names)._setFunc(func)._setReturnType(rt)
._setAnnotations(...)`) — which never sets `wrap_callables`.  A value
without a `__code__` attribute (anything but a function object) makes
`_getArgNames(func.__code__)` raise `AttributeError`. -/
def from_callable (retVal : Value) (type_ : Descriptor) :
    Except PyError Wrapper :=
  match retVal with
  | .func f =>
      let allArgs := getArgs type_
      let declaredParams := allArgs.dropLast
      let return_type :=
        match allArgs.getLast? with
        | Option.some r => r
        | Option.none => Descriptor.any
      match buildAnnLoop f.paramNames 0 declaredParams with
      | .error e => .error e
      | .ok anns =>
          .ok { args := f.paramNames
                anns := anns ++ [("return", return_type)]
                return_type := return_type
                wname := f.fname
                wrap_callables := Option.none
                func := f }
  | _ => .error (.attributeError "__code__")

/-- `_TypedWrapper.__init__(self, func, wrap_callables=True)` of
typed.py (lines 416-449): each formal parameter name gets its raw
annotation, or `Any` when it has none; the return type defaults to
`Any`; `annotations["return"]` is set; `wrap_callables` is stored. -/
def wrapperInit (f : FuncObj) (raw : List (String × Descriptor))
    (wrap_callables : Bool) : Wrapper :=
  let names := f.paramNames
  let anns := names.map (fun n =>
    (n, match lookupAnn raw n with
        | Option.some d => d
        | Option.none => Descriptor.any))
  let rt :=
    match lookupAnn raw "return" with
    | Option.some d => d
    | Option.none => Descriptor.any
  { args := names
    anns := anns ++ [("return", rt)]
    return_type := rt
    wname := f.fname
    wrap_callables := Option.some wrap_callables
    func := f }

/-- What `__call__` produces: either a plain value or a fresh
`_TypedWrapper` built by `from_callable`. -/
inductive CallResult where
  | plain (v : Value)
  | wrapped (w : Wrapper)
  deriving Repr

/-- The tail of `__call__`: `if _typecheck(ret, self.return_type):
return ret else: raise TypeError("Function '%s' must return type '%s'")`
with `self.return_type_name = _getTypeName(self.return_type)`. -/
def finishReturn (w : Wrapper) (ret : Value) : Except PyError CallResult :=
  match typecheck ret w.return_type with
  | .error e => .error e
  | .ok true => .ok (.plain ret)
  | .ok false => .error (.returnTypeError w.wname (getTypeName w.return_type))

/-- `_TypedWrapper.__call__(self, *args, **kwargs)` of typed.py (lines
494-508): run `typedfunc`; then `if _isCallable(ret) and
self.wrap_callables:` — note `_isCallable` is applied to the returned
*value* and tests `ret.__class__ == _CallableGenericAlias`, which no
actual function satisfies; Python's `and` short-circuits, so
`self.wrap_callables` (an `AttributeError` on a `from_callable`-built
wrapper) is only read when the class test passes — wrap via
`from_callable(ret, self.return_type)`, otherwise fall through to the
return-type check. -/
def wcall (sem : Sem) (w : Wrapper) (args : List Value)
    (kwargs : List (String × Value)) : Except PyError CallResult :=
  match typedfunc sem w args kwargs with
  | .error e => .error e
  | .ok ret =>
      if isCallableValue ret then
        match w.wrap_callables with
        | Option.none => .error (.attributeError "wrap_callables")
        | Option.some true =>
            match from_callable ret w.return_type with
            | .error e => .error e
            | .ok w' => .ok (.wrapped w')
        | Option.some false => finishReturn w ret
      else finishReturn w ret

/-- `type(v).__name__` for a runtime value. -/
def pyTypeName : Value → String
  | .none => "NoneType"
  | .int _ => "int"
  | .bool _ => "bool"
  | .str _ => "str"
  | .pylist _ => "list"
  | .pytuple _ => "tuple"
  | .pydict _ => "dict"
  | .pytype _ => "type"
  | .func _ => "function"
  | .typingObj _ => "_GenericAlias"

/-- `x + v` where `x` is an int: CPython's `int.__add__` / `__radd__`.
Adding a non-number raises `TypeError("unsupported operand type(s) for
+: 'int' and '<type>'")`; a bool is a subclass of int and adds as 0 or
1. -/
def pyAdd (x : Int) (v : Value) : Except PyError Value :=
  match v with
  | .int y => .ok (.int (x + y))
  | .bool b => .ok (.int (x + (if b then 1 else 0)))
  | v =>
      .error (.typeError
        ("unsupported operand type(s) for +: 'int' and '" ++ pyTypeName v ++ "'"))

/-- The inner callable produced by the `makeAdder` factory scenario:
`def adder(y): return x + y` with `x` captured, formal parameter list
`["y"]`. -/
def adderFunc (x : Int) : FuncObj :=
  { paramNames := ["y"], fname := "adder", code := .adderBody x }

/-- The factory of the `makeAdder` scenario: `def makeAdder(x): def
adder(y): return x + y; return adder`. -/
def makeAdderFunc : FuncObj :=
  { paramNames := ["x"], fname := "makeAdder", code := .makeAdderBody }

/-- A returned callable with two formal parameters `(y, z)`, used to
probe the padding behaviour of `from_callable`. -/
def twoParamFunc : FuncObj :=
  { paramNames := ["y", "z"], fname := "g", code := .twoParamBody }

/-- `def add(x, y): ...` — a two-parameter target for the
argument-check scenarios (its body is never reached there). -/
def addFunc : FuncObj :=
  { paramNames := ["x", "y"], fname := "add", code := .twoParamBody }

/-- The behaviour of the concrete bodies above (what calling the
function does), total on the invocations exercised in this file. -/
def pySem : Sem := fun f args _kwargs =>
  match f.code, args with
  | .makeAdderBody, [.int x] => .ok (.func (adderFunc x))
  | .adderBody x, [v] => pyAdd x v
  | .constInt n, _ => .ok (.int n)
  | .raiseErr e, _ => .error e
  | .twoParamBody, _ => .ok Value.none
  | _, _ => .error (.typeError "invalid invocation")

/-- The contracted `makeAdder`: `@typed def makeAdder(x: int) ->
Callable[[int], int]`, i.e. `_TypedWrapper(makeAdderFunc)` with those
annotations. -/
def makeAdderW : Wrapper :=
  wrapperInit makeAdderFunc
    [("x", .nominal .int),
     ("return", .callable [.nominal .int] (.nominal .int))]
    true

/-- The contracted `add`: `@typed def add(x: int, y: int) -> int`. -/
def addW : Wrapper :=
  wrapperInit addFunc
    [("x", .nominal .int), ("y", .nominal .int), ("return", .nominal .int)]
    true

/-- Python's short-circuit `or` over matcher results: if the left
operand already matched the right is not evaluated; an exception in
the left operand propagates before the right is looked at. -/
def pyOr (a b : Except PyError Bool) : Except PyError Bool :=
  match a with
  | .ok true => .ok true
  | .ok false => b
  | .error e => .error e

/-- The descriptors on which `_typecheck` cannot raise, whatever the
value: no `NoReturn` marker, no bare `typing.Dict` (whose Dict branch
indexes an empty `__args__`), and no subscripted `Type[X]` (which
falls through to an `isinstance` check on a subscripted generic), in
any checked position. -/
def crashFree : Descriptor → Bool
  | .any => true
  | .noReturn => false
  | .noneType => true
  | .typeRef Option.none => true
  | .typeRef (Option.some _) => false
  | .typeVar _ Option.none => true
  | .typeVar _ (Option.some b) => crashFree b
  | .builtinType => true
  | .union ms => ms.attach.all (fun m => crashFree m.1)
  | .listD Option.none => true
  | .listD (Option.some e) => crashFree e
  | .tupleD es => es.attach.all (fun m => crashFree m.1)
  | .dictD Option.none => false
  | .dictD (Option.some (k, v)) => crashFree k && crashFree v
  | .callable _ _ => true
  | .strLit _ => true
  | .nominal _ => true
decreasing_by
  all_goals simp_wf
  all_goals first
  | (have hlt := List.sizeOf_lt_of_mem m.2; simp_all; omega)
  | omega

/-! ### Helper lemmas about the loops of `_typecheck` and `typedfunc` -/

/-- Unfolding `unionLoop` one member at a time. -/
theorem unionLoop_cons (v : Value) (m : Descriptor) (rest : List Descriptor) :
    unionLoop v (m :: rest) = pyOr (typecheck v m) (unionLoop v rest) := by
  rw [unionLoop]
  cases h : typecheck v m with
  | error e => simp [pyOr]
  | ok b => cases b <;> simp [pyOr]

/-- `pyOr` with an already-failed right operand is the left operand. -/
theorem pyOr_ok_false (a : Except PyError Bool) : pyOr a (.ok false) = a := by
  cases a with
  | error e => rfl
  | ok b => cases b <;> rfl

/-- A prefix of pairs that all pass their checks is skipped by the
checking loop. -/
theorem checkLoop_append_ok (fname : String) (anns : List (String × Descriptor))
    (pre rest : List (String × Value))
    (hpre : ∀ p ∈ pre, ∃ d, lookupAnn anns p.1 = Option.some d ∧
        typecheck p.2 d = .ok true) :
    checkLoop fname anns (pre ++ rest) = checkLoop fname anns rest := by
  induction pre with
  | nil => rfl
  | cons p pre ih =>
      obtain ⟨d, hd, htc⟩ := hpre p (by simp)
      simp only [List.cons_append, checkLoop, hd, htc]
      exact ih (fun q hq => hpre q (by simp [hq]))

/-! ### Claim theorems -/

/-- C8. For every value `v`, applying the matcher with the `NoReturn`
marker as the match target fails (the spec's `ContractMisuseError`,
realised in the source as `raise RuntimeError("NoReturn should not be
accessed by the typed wrapper")`); it never returns a boolean verdict
for any value. -/
theorem noReturn_always_fails (v : Value) :
    typecheck v .noReturn =
      .error (.runtimeError "NoReturn should not be accessed by the typed wrapper") := by
  simp [typecheck]

/-- C4. `matches(v, Union[A,B]) = matches(v,A) || matches(v,B)` for all
values and descriptors, where `||` is Python's short-circuit `or`
(`pyOr`): union members are evaluated in declared order and evaluation
stops at the first member that matches. The second conjunct is the
general declared-order unrolling for any member list. -/
theorem union_is_or :
    (∀ (v : Value) (A B : Descriptor),
        typecheck v (.union [A, B]) = pyOr (typecheck v A) (typecheck v B)) ∧
    (∀ (v : Value) (m : Descriptor) (rest : List Descriptor),
        typecheck v (.union (m :: rest)) =
          pyOr (typecheck v m) (typecheck v (.union rest))) := by
  have hcons : ∀ (v : Value) (m : Descriptor) (rest : List Descriptor),
      typecheck v (.union (m :: rest)) =
        pyOr (typecheck v m) (typecheck v (.union rest)) := by
    intro v m rest
    simp only [typecheck]
    exact unionLoop_cons v m rest
  refine ⟨fun v A B => ?_, hcons⟩
  rw [hcons]
  have h1 : typecheck v (.union [B]) = pyOr (typecheck v B) (typecheck v (.union [])) :=
    hcons v B []
  have h0 : typecheck v (Descriptor.union []) = .ok false := by
    simp [typecheck, unionLoop]
  rw [h1, h0, pyOr_ok_false]

/-- C5 (code bug). The Dict branch of `_typecheck` reads `args[0]`
without the `not args` guard its sibling List and Tuple branches have,
so matching a mapping against the bare `typing.Dict` raises
`IndexError` instead of returning true as specified; a non-mapping
still returns false (the only case the repository's own `_main` test
exercises). -/
theorem bare_dict_crash :
    typecheck (.pydict []) (.dictD Option.none) = .error .indexError ∧
    typecheck (.pylist [.str "test"]) (.dictD Option.none) = .ok false := by
  constructor <;> simp [typecheck]

/-- C6 (counterexample). The claim "matches(v, TypeReference) is true
iff v denotes a type/class, and an inner descriptor is applied to v
recursively" fails at the concrete value `5`: the bare `typing.Type`
matches `5` (which denotes no type), and `Type[int]` raises instead of
evaluating `matches(5, int)` (which would be true). -/
theorem typeRef_counterexample :
    typecheck (.int 5) (.typeRef Option.none) = .ok true ∧
    typecheck (.int 5) (.typeRef (Option.some (.nominal .int))) =
      .error .subscriptedInstanceCheck ∧
    typecheck (.int 5) (.nominal .int) = .ok true := by
  refine ⟨by simp [typecheck], by simp [typecheck], by simp [typecheck, pyIsInstance]⟩

/-- C6 (amended). `_isType` tests `x == Type and x.__class__ ==
_SpecialGenericAlias`, which only the bare `typing.Type` satisfies: a
bare `TypeReference` therefore matches every value without checking
that it denotes a type (its `_getArgs` is empty, so `check = True`),
and a parameterised `Type[X]` is not recognised by any dispatch
predicate and falls through to `isinstance(v, Type[X])`, which raises
for every value — the recursive inner check on line 234 of typed.py is
dead code. -/
theorem typeRef_behaviour :
    (∀ v : Value, typecheck v (.typeRef Option.none) = .ok true) ∧
    (∀ (v : Value) (d : Descriptor),
        typecheck v (.typeRef (Option.some d)) = .error .subscriptedInstanceCheck) := by
  exact ⟨fun v => by simp [typecheck], fun v d => by simp [typecheck]⟩

/-- C1 (code bug). `__call__` guards the auto-wrap with
`_isCallable(ret)`, which tests `ret.__class__ == _CallableGenericAlias`
— false for every actual function object — so the result of
`makeAdder(2)` is returned raw, not wrapped: the nested contract is
never installed, `g(3)` still computes 5, but `g("3")` reaches the
bare addition and raises the interpreter's own `TypeError`, not the
contract's `ArgumentTypeError`.  This contradicts the repository's own
`_main` test, which expects the returned callable to be wrapped and a
`TypeError` to be raised by the wrapper for mistyped inner arguments. -/
theorem makeAdder_not_wrapped :
    wcall pySem makeAdderW [.int 2] [] = .ok (.plain (.func (adderFunc 2))) ∧
    pySem (adderFunc 2) [.int 3] [] = .ok (.int 5) ∧
    pySem (adderFunc 2) [.str "3"] [] =
      .error (.typeError "unsupported operand type(s) for +: 'int' and 'str'") := by
  refine ⟨?_, ?_, ?_⟩
  · simp [wcall, typedfunc, makeAdderW, wrapperInit, makeAdderFunc, checkLoop,
      lookupAnn, typecheck, pyIsInstance, pySem, adderFunc, isCallableValue,
      finishReturn]
  · simp [pySem, adderFunc, pyAdd]
  · simp [pySem, adderFunc, pyAdd, pyTypeName]

/-- C2 (code bug). In `from_callable` the loop runs `for i in
range(len(args))` with `nAnnotations = len(args)`, so the guard
`i < nAnnotations` is always true and the `else: annotations[names[i]]
= Any` padding branch is dead code: a formal parameter name beyond the
declared `CallableSignature.params` list is simply never annotated.
Declared `Callable[[int], int]` against a returned callable
`g(y, z)` leaves `z` without any entry (instead of the specified
`Any`), and invoking the wrapped result with two positional arguments
raises `KeyError: 'z'` from `self.annotations[arg]`. -/
theorem from_callable_no_padding :
    ∃ w, from_callable (.func twoParamFunc)
          (.callable [.nominal .int] (.nominal .int)) = .ok w ∧
      w.args = ["y", "z"] ∧
      w.anns = [("y", .nominal .int), ("return", .nominal .int)] ∧
      lookupAnn w.anns "z" = Option.none ∧
      typedfunc pySem w [.int 1, .int 2] [] = .error (.keyError "z") := by
  refine ⟨_, rfl, rfl, rfl, rfl, ?_⟩
  simp [typedfunc, from_callable, twoParamFunc, getArgs, buildAnnLoop, checkLoop,
    lookupAnn, typecheck, pyIsInstance]

/-- C3 (counterexample). The claim says the first failing argument
raises an `ArgumentTypeError` carrying, among other data, the actual
value's type name.  Two invocations of the contracted
`add(x: int, y: int) -> int` whose offending arguments have different
types (`str` and `NoneType`) produce the *identical* exception value —
`TypeError("Function 'add' argument 'y' must be type 'int'")`, whose
format interpolates only the function name, the parameter name and the
expected type name — so the raised error cannot carry the actual
value's type name. -/
theorem argError_lacks_actual_type :
    typedfunc pySem addW [.int 2, .str "3"] [] =
      .error (.argTypeError "add" "y" "int") ∧
    typedfunc pySem addW [.int 2, Value.none] [] =
      .error (.argTypeError "add" "y" "int") := by
  constructor <;>
    simp [typedfunc, addW, wrapperInit, addFunc, checkLoop, lookupAnn,
      typecheck, pyIsInstance, getTypeName, className]

/-- C3 (amended). Positionally bound arguments are checked in declared
parameter order; on the first argument whose value fails `matches`,
the invocation fails with the `TypeError` carrying the function name,
the parameter name and the expected descriptor name (but not the
actual value's type name, which only an optional debug trace prints);
no further arguments are checked after the first failure, and the
underlying target is not invoked (the conclusion holds for every
target semantics and arbitrary remaining pairs). -/
theorem first_failure_argTypeError (sem : Sem) (w : Wrapper)
    (args : List Value) (kwargs : List (String × Value))
    (pre : List (String × Value)) (pname : String) (v : Value)
    (rest : List (String × Value)) (d : Descriptor)
    (hzip : List.zip w.args args = pre ++ (pname, v) :: rest)
    (hpre : ∀ p ∈ pre, ∃ dp, lookupAnn w.anns p.1 = Option.some dp ∧
        typecheck p.2 dp = .ok true)
    (hd : lookupAnn w.anns pname = Option.some d)
    (hfail : typecheck v d = .ok false) :
    typedfunc sem w args kwargs =
      .error (.argTypeError w.wname pname (getTypeName d)) := by
  unfold typedfunc
  rw [hzip, checkLoop_append_ok w.wname w.anns pre _ hpre]
  simp [checkLoop, hd, hfail]

/-- Witness for `first_failure_argTypeError`: the contracted
`add(x: int, y: int) -> int` invoked as `add(5, [])` fails on `y`. -/
theorem first_failure_argTypeError_witness :
    typedfunc pySem addW [.int 5, .pylist []] [] =
      .error (.argTypeError "add" "y" "int") := by
  have h := first_failure_argTypeError pySem addW [.int 5, .pylist []] []
    [("x", .int 5)] "y" (.pylist []) [] (.nominal .int)
    (by simp [addW, wrapperInit, addFunc])
    (by
      intro p hp
      simp at hp
      subst hp
      exact ⟨.nominal .int, by simp [addW, wrapperInit, addFunc, lookupAnn],
        by simp [typecheck, pyIsInstance]⟩)
    (by simp [addW, wrapperInit, addFunc, lookupAnn])
    (by simp [typecheck, pyIsInstance])
  simpa [addW, wrapperInit, addFunc, getTypeName, className] using h

/-- C7. An exception raised by the wrapped target itself propagates
through `typedfunc` and `__call__` unchanged — the `try/except` around
`self.func(*args, **kwargs)` only debug-prints and re-raises with a
bare `raise`, so the caller receives the original exception value for
every wrapper, argument list and target semantics. -/
theorem target_error_propagates (sem : Sem) (w : Wrapper)
    (args : List Value) (kwargs : List (String × Value)) (e : PyError)
    (hchecks : checkLoop w.wname w.anns (List.zip w.args args) = .ok ())
    (htarget : sem w.func args kwargs = .error e) :
    wcall sem w args kwargs = .error e := by
  simp [wcall, typedfunc, hchecks, htarget]

/-- Witness for `target_error_propagates`: a target that raises
`TypeError("boom")` behind a passing contract surfaces exactly that
error. -/
theorem target_error_propagates_witness :
    wcall pySem
      (wrapperInit { paramNames := ["x"], fname := "boom",
                     code := .raiseErr (.typeError "boom") }
        [("x", .nominal .int)] true)
      [.int 1] [] = .error (.typeError "boom") := by
  exact target_error_propagates pySem _ [.int 1] [] (.typeError "boom")
    (by simp [wrapperInit, checkLoop, lookupAnn, typecheck, pyIsInstance])
    (by simp [wrapperInit, pySem])

/-! ### Totality of the matcher on crash-free descriptors -/

/-- If every member check of a union returns a verdict, the union loop
returns a verdict. -/
theorem unionLoop_ok (v : Value) (ms : List Descriptor)
    (h : ∀ m ∈ ms, ∃ b, typecheck v m = .ok b) :
    ∃ b, unionLoop v ms = .ok b := by
  induction ms with
  | nil => exact ⟨false, by simp [unionLoop]⟩
  | cons m rest ih =>
      obtain ⟨b, hb⟩ := h m (by simp)
      cases b with
      | true => exact ⟨true, by simp [unionLoop, hb]⟩
      | false =>
          obtain ⟨b', hb'⟩ := ih (fun m' hm' => h m' (by simp [hm']))
          exact ⟨b', by simp [unionLoop, hb, hb']⟩

/-- If every element check returns a verdict, the element loop returns
a verdict. -/
theorem listAllCheck_ok (e : Descriptor) (xs : List Value)
    (h : ∀ x ∈ xs, ∃ b, typecheck x e = .ok b) :
    ∃ b, listAllCheck xs e = .ok b := by
  induction xs with
  | nil => exact ⟨true, by simp [listAllCheck]⟩
  | cons x rest ih =>
      obtain ⟨b, hb⟩ := h x (by simp)
      obtain ⟨b', hb'⟩ := ih (fun x' hx' => h x' (by simp [hx']))
      exact ⟨b && b', by simp [listAllCheck, hb, hb']⟩

/-- If every positional check of a tuple returns a verdict, the tuple
loop returns a verdict. -/
theorem tupleLoop_ok (ts : List Descriptor)
    (h : ∀ t ∈ ts, ∀ x, ∃ b, typecheck x t = .ok b) :
    ∀ (xs : List Value) (acc : Bool), ∃ b, tupleLoop xs ts acc = .ok b := by
  induction ts with
  | nil => intro xs acc; exact ⟨acc, by cases xs <;> simp [tupleLoop]⟩
  | cons t ts ih =>
      intro xs acc
      cases xs with
      | nil => exact ⟨acc, by simp [tupleLoop]⟩
      | cons x xs' =>
          obtain ⟨b, hb⟩ := h t (by simp) x
          obtain ⟨b', hb'⟩ := ih (fun t' ht' x' => h t' (by simp [ht']) x') xs' (acc && b)
          exact ⟨b', by simp [tupleLoop, hb, hb']⟩

/-- `crashFree` of a union means every member is crash-free. -/
theorem crashFree_union_iff (ms : List Descriptor) :
    crashFree (.union ms) = true ↔ ∀ m ∈ ms, crashFree m = true := by
  simp only [crashFree, List.all_eq_true]
  constructor
  · intro h m hm; exact h ⟨m, hm⟩ (List.mem_attach _ _)
  · intro h x _; exact h x.1 x.2

/-- `crashFree` of a tuple descriptor means every element is
crash-free. -/
theorem crashFree_tupleD_iff (es : List Descriptor) :
    crashFree (.tupleD es) = true ↔ ∀ m ∈ es, crashFree m = true := by
  simp only [crashFree, List.all_eq_true]
  constructor
  · intro h m hm; exact h ⟨m, hm⟩ (List.mem_attach _ _)
  · intro h x _; exact h x.1 x.2

/-- Evaluation of the `NoneType` branch. -/
theorem typecheck_noneType (v : Value) :
    typecheck v .noneType =
      .ok (match v with | .none => true | _ => false) := by
  cases v <;> simp [typecheck]

/-- Evaluation of the bare-`List` branch. -/
theorem typecheck_listD_none (v : Value) :
    typecheck v (.listD Option.none) =
      .ok (match v with | .pylist _ => true | _ => false) := by
  cases v <;> simp [typecheck]

/-- Strong-induction core: on a crash-free descriptor the matcher
returns a verdict for every value. -/
theorem typecheck_ok_aux :
    ∀ (n : Nat) (t : Descriptor), sizeOf t ≤ n → crashFree t = true →
      ∀ v : Value, ∃ b, typecheck v t = .ok b := by
  intro n
  induction n with
  | zero => intro t ht; exact absurd ht (by cases t <;> simp)
  | succ n ih =>
      intro t ht hcf v
      match t with
      | .any => exact ⟨true, by simp [typecheck]⟩
      | .noReturn => simp [crashFree] at hcf
      | .noneType => exact ⟨_, typecheck_noneType v⟩
      | .typeRef Option.none => exact ⟨true, by simp [typecheck]⟩
      | .typeRef (Option.some _) => simp [crashFree] at hcf
      | .typeVar nm Option.none => exact ⟨true, by simp [typecheck]⟩
      | .typeVar nm (Option.some b) =>
          have hb : crashFree b = true := by simpa [crashFree] using hcf
          have hsz : sizeOf b ≤ n := by simp at ht; omega
          obtain ⟨bb, hbb⟩ := ih b hsz hb v
          exact ⟨bb, by simp [typecheck, hbb]⟩
      | .builtinType => exact ⟨true, by simp [typecheck]⟩
      | .union ms =>
          have hms := (crashFree_union_iff ms).mp hcf
          have hsz : ∀ m ∈ ms, sizeOf m ≤ n := by
            intro m hm
            have := List.sizeOf_lt_of_mem hm
            simp at ht; omega
          obtain ⟨b, hb⟩ := unionLoop_ok v ms
            (fun m hm => ih m (hsz m hm) (hms m hm) v)
          exact ⟨b, by simp [typecheck, hb]⟩
      | .listD Option.none => exact ⟨_, typecheck_listD_none v⟩
      | .listD (Option.some e) =>
          have he : crashFree e = true := by simpa [crashFree] using hcf
          have hsz : sizeOf e ≤ n := by simp at ht; omega
          cases v with
          | pylist xs =>
              obtain ⟨b, hb⟩ := listAllCheck_ok e xs (fun x _ => ih e hsz he x)
              exact ⟨b, by simp [typecheck, hb]⟩
          | _ => exact ⟨false, by simp [typecheck]⟩
      | .tupleD es =>
          have hes := (crashFree_tupleD_iff es).mp hcf
          have hsz : ∀ m ∈ es, sizeOf m ≤ n := by
            intro m hm
            have := List.sizeOf_lt_of_mem hm
            simp at ht; omega
          cases v with
          | pytuple xs =>
              by_cases hemp : es.isEmpty
              · exact ⟨true, by simp [typecheck, hemp]⟩
              · by_cases hlen : es.length = xs.length
                · obtain ⟨b, hb⟩ :=
                    tupleLoop_ok es (fun t' ht' x => ih t' (hsz t' ht') (hes t' ht') x)
                      xs true
                  exact ⟨b, by simp [typecheck, hemp, hlen, hb]⟩
                · exact ⟨false, by simp [typecheck, hemp, hlen]⟩
          | _ => exact ⟨false, by simp [typecheck]⟩
      | .dictD Option.none => simp [crashFree] at hcf
      | .dictD (Option.some (kd, vd)) =>
          have hk : crashFree kd = true := by
            have := hcf; simp [crashFree, Bool.and_eq_true] at this; exact this.1
          have hvd : crashFree vd = true := by
            have := hcf; simp [crashFree, Bool.and_eq_true] at this; exact this.2
          have hszk : sizeOf kd ≤ n := by simp at ht; omega
          have hszv : sizeOf vd ≤ n := by simp at ht; omega
          cases v with
          | pydict pairs =>
              obtain ⟨kb, hkb⟩ :=
                listAllCheck_ok kd (pairs.map Prod.fst) (fun x _ => ih kd hszk hk x)
              obtain ⟨vb, hvb⟩ :=
                listAllCheck_ok vd (pairs.map Prod.snd) (fun x _ => ih vd hszv hvd x)
              exact ⟨kb && vb, by simp [typecheck, hkb, hvb]⟩
          | _ => exact ⟨false, by simp [typecheck]⟩
      | .callable ps r => exact ⟨true, by simp [typecheck]⟩
      | .strLit s => exact ⟨true, by simp [typecheck]⟩
      | .nominal c =>
          by_cases hc : c = .str
          · exact ⟨true, by simp [typecheck, hc]⟩
          · exact ⟨pyIsInstance v c, by simp [typecheck, hc]⟩

/-- C9 (counterexample). The matcher is not boolean-valued on every
descriptor other than the `NoReturn` marker: matching a non-empty dict
against the bare `typing.Dict` — a descriptor distinct from `NoReturn`
— raises `IndexError` instead of terminating with a boolean. -/
theorem matcher_can_raise :
    typecheck (.pydict [(.str "a", .int 1)]) (.dictD Option.none) =
      .error .indexError ∧
    Descriptor.dictD Option.none ≠ Descriptor.noReturn := by
  exact ⟨by simp [typecheck], fun h => Descriptor.noConfusion h⟩

/-- C9 (amended). The matcher, embedded as the total Lean function
`typecheck`, terminates deterministically on every value/descriptor
pair; it returns a boolean verdict (never raises) on every descriptor
that avoids the three crash shapes — a `NoReturn` marker, a bare
`typing.Dict`, or a subscripted `Type[X]` in any checked position
(`crashFree`) — rather than on every non-`NoReturn` descriptor as
claimed. -/
theorem matcher_total_on_crashFree (t : Descriptor) (h : crashFree t = true)
    (v : Value) : ∃ b, typecheck v t = .ok b :=
  typecheck_ok_aux (sizeOf t) t (le_refl _) h v

/-- Witness for `matcher_total_on_crashFree` at `List[int]` against
`[1, "a"]`. -/
theorem matcher_total_on_crashFree_witness :
    crashFree (.listD (Option.some (.nominal .int))) = true ∧
    ∃ b, typecheck (.pylist [.int 1, .str "a"])
        (.listD (Option.some (.nominal .int))) = .ok b := by
  have hcf : crashFree (.listD (Option.some (.nominal .int))) = true := by
    simp [crashFree]
  exact ⟨hcf, matcher_total_on_crashFree _ hcf _⟩

/-! ### Which exceptions the matcher itself can raise -/

/-- An error escaping the union loop comes from one of its member
checks. -/
theorem unionLoop_error (v : Value) (ms : List Descriptor) (e : PyError)
    (h : unionLoop v ms = .error e) :
    ∃ m ∈ ms, typecheck v m = .error e := by
  induction ms with
  | nil => simp [unionLoop] at h
  | cons m rest ih =>
      rw [unionLoop] at h
      cases htc : typecheck v m with
      | error e' =>
          rw [htc] at h
          simp at h
          exact ⟨m, by simp, by rw [htc, h]⟩
      | ok b =>
          rw [htc] at h
          cases b with
          | true => simp at h
          | false =>
              simp at h
              obtain ⟨m', hm', h'⟩ := ih h
              exact ⟨m', by simp [hm'], h'⟩

/-- An error escaping the element loop comes from one of its element
checks. -/
theorem listAllCheck_error (xs : List Value) (d : Descriptor) (e : PyError)
    (h : listAllCheck xs d = .error e) :
    ∃ x ∈ xs, typecheck x d = .error e := by
  induction xs with
  | nil => simp [listAllCheck] at h
  | cons x rest ih =>
      rw [listAllCheck] at h
      cases htc : typecheck x d with
      | error e' =>
          rw [htc] at h
          simp at h
          exact ⟨x, by simp, by rw [htc, h]⟩
      | ok b =>
          rw [htc] at h
          cases hrest : listAllCheck rest d with
          | error e' =>
              rw [hrest] at h
              simp at h
              obtain ⟨x', hx', h'⟩ := ih (by rw [hrest, h])
              exact ⟨x', by simp [hx'], h'⟩
          | ok b' => rw [hrest] at h; simp at h

/-- An error escaping the tuple loop comes from one of its positional
checks. -/
theorem tupleLoop_error (ts : List Descriptor) :
    ∀ (xs : List Value) (acc : Bool) (e : PyError),
      tupleLoop xs ts acc = .error e →
      ∃ t ∈ ts, ∃ x, typecheck x t = .error e := by
  induction ts with
  | nil => intro xs acc e h; cases xs <;> simp [tupleLoop] at h
  | cons t ts ih =>
      intro xs acc e h
      cases xs with
      | nil => simp [tupleLoop] at h
      | cons x xs' =>
          rw [tupleLoop] at h
          cases htc : typecheck x t with
          | error e' =>
              rw [htc] at h
              simp at h
              exact ⟨t, by simp, x, by rw [htc, h]⟩
          | ok b =>
              rw [htc] at h
              simp at h
              obtain ⟨t', ht', x', h'⟩ := ih xs' (acc && b) e h
              exact ⟨t', by simp [ht'], x', h'⟩

/-- The only exceptions `_typecheck` itself can raise: the `NoReturn`
`RuntimeError`, the bare-Dict `IndexError`, and the subscripted-generic
`isinstance` `TypeError`. In particular it never raises the wrapper's
argument `TypeError`. -/
def matcherError (e : PyError) : Prop :=
  e = .runtimeError "NoReturn should not be accessed by the typed wrapper" ∨
  e = .indexError ∨ e = .subscriptedInstanceCheck

/-- Strong-induction core: every error the matcher raises is a
`matcherError`. -/
theorem typecheck_error_shape_aux :
    ∀ (n : Nat) (t : Descriptor), sizeOf t ≤ n →
      ∀ (v : Value) (e : PyError), typecheck v t = .error e → matcherError e := by
  intro n
  induction n with
  | zero => intro t ht; exact absurd ht (by cases t <;> simp)
  | succ n ih =>
      intro t ht v e h
      match t with
      | .any => simp [typecheck] at h
      | .noReturn =>
          rw [typecheck] at h
          exact Or.inl (by simpa using h.symm)
      | .noneType => rw [typecheck_noneType] at h; simp at h
      | .typeRef Option.none => simp [typecheck] at h
      | .typeRef (Option.some _) =>
          rw [typecheck] at h
          exact Or.inr (Or.inr (by simpa using h.symm))
      | .typeVar nm Option.none => simp [typecheck] at h
      | .typeVar nm (Option.some b) =>
          rw [typecheck] at h
          exact ih b (by simp at ht; omega) v e h
      | .builtinType => simp [typecheck] at h
      | .union ms =>
          rw [typecheck] at h
          obtain ⟨m, hm, hme⟩ := unionLoop_error v ms e h
          have := List.sizeOf_lt_of_mem hm
          exact ih m (by simp at ht; omega) v e hme
      | .listD Option.none => rw [typecheck_listD_none] at h; simp at h
      | .listD (Option.some d) =>
          cases v with
          | pylist xs =>
              rw [typecheck] at h
              obtain ⟨x, _, hxe⟩ := listAllCheck_error xs d e h
              exact ih d (by simp at ht; omega) x e hxe
          | none => simp [typecheck] at h
          | int _ => simp [typecheck] at h
          | bool _ => simp [typecheck] at h
          | str _ => simp [typecheck] at h
          | pytuple _ => simp [typecheck] at h
          | pydict _ => simp [typecheck] at h
          | pytype _ => simp [typecheck] at h
          | func _ => simp [typecheck] at h
          | typingObj _ => simp [typecheck] at h
      | .tupleD ts =>
          cases v with
          | pytuple xs =>
              rw [typecheck] at h
              by_cases hemp : ts.isEmpty
              · simp [hemp] at h
              · by_cases hlen : ts.length = xs.length
                · have h' : tupleLoop xs ts true = .error e := by
                    simpa [hemp, hlen] using h
                  obtain ⟨t', ht', x, hxe⟩ := tupleLoop_error ts xs true e h'
                  have := List.sizeOf_lt_of_mem ht'
                  exact ih t' (by simp at ht; omega) x e hxe
                · simp [hemp, hlen] at h
          | none => simp [typecheck] at h
          | int _ => simp [typecheck] at h
          | bool _ => simp [typecheck] at h
          | str _ => simp [typecheck] at h
          | pylist _ => simp [typecheck] at h
          | pydict _ => simp [typecheck] at h
          | pytype _ => simp [typecheck] at h
          | func _ => simp [typecheck] at h
          | typingObj _ => simp [typecheck] at h
      | .dictD Option.none =>
          cases v with
          | pydict pairs =>
              rw [typecheck] at h
              exact Or.inr (Or.inl (by simpa using h.symm))
          | none => simp [typecheck] at h
          | int _ => simp [typecheck] at h
          | bool _ => simp [typecheck] at h
          | str _ => simp [typecheck] at h
          | pylist _ => simp [typecheck] at h
          | pytuple _ => simp [typecheck] at h
          | pytype _ => simp [typecheck] at h
          | func _ => simp [typecheck] at h
          | typingObj _ => simp [typecheck] at h
      | .dictD (Option.some (kd, vd)) =>
          cases v with
          | pydict pairs =>
              rw [typecheck] at h
              cases hk : listAllCheck (pairs.map Prod.fst) kd with
              | error ek =>
                  rw [hk] at h
                  simp at h
                  obtain ⟨x, _, hxe⟩ :=
                    listAllCheck_error (pairs.map Prod.fst) kd ek hk
                  exact ih kd (by simp at ht; omega) x e (h ▸ hxe)
              | ok kb =>
                  rw [hk] at h
                  cases hv : listAllCheck (pairs.map Prod.snd) vd with
                  | error ev =>
                      rw [hv] at h
                      simp at h
                      obtain ⟨x, _, hxe⟩ :=
                        listAllCheck_error (pairs.map Prod.snd) vd ev hv
                      exact ih vd (by simp at ht; omega) x e (h ▸ hxe)
                  | ok vb => rw [hv] at h; simp at h
          | none => simp [typecheck] at h
          | int _ => simp [typecheck] at h
          | bool _ => simp [typecheck] at h
          | str _ => simp [typecheck] at h
          | pylist _ => simp [typecheck] at h
          | pytuple _ => simp [typecheck] at h
          | pytype _ => simp [typecheck] at h
          | func _ => simp [typecheck] at h
          | typingObj _ => simp [typecheck] at h
      | .callable ps r => simp [typecheck] at h
      | .strLit s => simp [typecheck] at h
      | .nominal c =>
          rw [typecheck] at h
          by_cases hc : c = .str
          · simp [hc] at h
          · simp [hc] at h

/-- An `argTypeError` escaping the checking loop names a parameter
bound in the loop's pair list, and the loop's own function name. -/
theorem checkLoop_argError (fname : String) (anns : List (String × Descriptor))
    (l : List (String × Value)) (fn pn tn : String)
    (h : checkLoop fname anns l = .error (.argTypeError fn pn tn)) :
    pn ∈ l.map Prod.fst ∧ fn = fname := by
  induction l with
  | nil => simp [checkLoop] at h
  | cons p rest ih =>
      obtain ⟨q, v⟩ := p
      cases hlk : lookupAnn anns q with
      | none => simp only [checkLoop, hlk] at h; simp at h
      | some d =>
          simp only [checkLoop, hlk] at h
          cases htc : typecheck v d with
          | error e' =>
              rw [htc] at h
              simp at h
              have hme : matcherError e' :=
                typecheck_error_shape_aux (sizeOf d) d (le_refl _) v e' htc
              rw [h] at hme
              rcases hme with h1 | h1 | h1 <;> simp at h1
          | ok b =>
              rw [htc] at h
              cases b with
              | true =>
                  simp at h
                  obtain ⟨h1, h2⟩ := ih h
                  exact ⟨by simp [h1], h2⟩
              | false =>
                  simp at h
                  exact ⟨by simp [h.2.1], h.1.symm⟩

/-- A name appearing as a first component of `zip names args` is the
name at a position for which a positional argument exists. -/
theorem mem_zip_fst :
    ∀ (names : List String) (args : List Value) (pn : String),
      pn ∈ (List.zip names args).map Prod.fst →
      ∃ i, i < args.length ∧ names.get? i = Option.some pn := by
  intro names
  induction names with
  | nil => intro args pn h; simp at h
  | cons nm names ih =>
      intro args pn h
      cases args with
      | nil => simp at h
      | cons a args' =>
          simp only [List.zip_cons_cons, List.map_cons, List.mem_cons] at h
          rcases h with h | h
          · exact ⟨0, by simp, by simp [h]⟩
          · obtain ⟨i, hi, hg⟩ := ih args' pn h
            exact ⟨i + 1, by simp; omega, by simpa using hg⟩

/-- C10. `typedfunc` zips the contract's parameter names against the
positional argument tuple only: the checking loop sees exactly
`zip(self.args, args)`, keyword arguments flow to the underlying
target unexamined (first conjunct — the entire invocation is the
check over the zipped pairs followed by the raw call), and any
argument `TypeError` the loop raises names a parameter at a position
for which a positional argument was supplied (second conjunct). -/
theorem only_positional_checked :
    (∀ (sem : Sem) (w : Wrapper) (args : List Value)
        (kwargs : List (String × Value)),
        typedfunc sem w args kwargs =
          match checkLoop w.wname w.anns (List.zip w.args args) with
          | .error e => .error e
          | .ok _ => sem w.func args kwargs) ∧
    (∀ (w : Wrapper) (args : List Value) (fn pn tn : String),
        checkLoop w.wname w.anns (List.zip w.args args) =
            .error (.argTypeError fn pn tn) →
        ∃ i, i < args.length ∧ w.args.get? i = Option.some pn) := by
  constructor
  · intro sem w args kwargs; rfl
  · intro w args fn pn tn h
    exact mem_zip_fst w.args args pn (checkLoop_argError _ _ _ _ _ _ h).1

end RilowTyped
